import Mathlib

/-!
Verification development for the IoT command-dispatch core
(`cloud_platform/application/client_http.py` and
`cloud_platform/application/operator_api.py`).

The Python code is shallowly embedded: decoded JSON values become the `Json`
inductive below, Python dicts become association lists with unique keys,
`requests` network behaviour becomes an explicit oracle
`net : String → Json → NetOutcome` mapping (url, posted payload) to the
observed event, and a Python function that can raise an unhandled exception
is embedded as an `Option`-valued function (`none` = the exception escapes
the handler).
-/

namespace IoT

/-- A decoded JSON value (Python object produced by `response.json()` /
`request.get_json()`).  Numbers are modelled as integers: the dispatch code
only ever consumes HTTP status codes and never inspects numeric record
values, so fractional parts are irrelevant to every claim. -/
inductive Json where
  | null
  | bool (b : Bool)
  | num (n : Int)
  | str (s : String)
  | arr (xs : List Json)
  | obj (kvs : List (String × Json))

mutual

def Json.decEq : (a b : Json) → Decidable (a = b)
  | .null, .null => .isTrue rfl
  | .bool a, .bool b =>
    if h : a = b then .isTrue (by rw [h]) else .isFalse (by intro hc; cases hc; exact h rfl)
  | .num a, .num b =>
    if h : a = b then .isTrue (by rw [h]) else .isFalse (by intro hc; cases hc; exact h rfl)
  | .str a, .str b =>
    if h : a = b then .isTrue (by rw [h]) else .isFalse (by intro hc; cases hc; exact h rfl)
  | .arr a, .arr b =>
    match Json.decEqList a b with
    | .isTrue h => .isTrue (by rw [h])
    | .isFalse h => .isFalse (by intro hc; cases hc; exact h rfl)
  | .obj a, .obj b =>
    match Json.decEqObj a b with
    | .isTrue h => .isTrue (by rw [h])
    | .isFalse h => .isFalse (by intro hc; cases hc; exact h rfl)
  | .null, .bool _ => .isFalse (by intro h; cases h)
  | .null, .num _ => .isFalse (by intro h; cases h)
  | .null, .str _ => .isFalse (by intro h; cases h)
  | .null, .arr _ => .isFalse (by intro h; cases h)
  | .null, .obj _ => .isFalse (by intro h; cases h)
  | .bool _, .null => .isFalse (by intro h; cases h)
  | .bool _, .num _ => .isFalse (by intro h; cases h)
  | .bool _, .str _ => .isFalse (by intro h; cases h)
  | .bool _, .arr _ => .isFalse (by intro h; cases h)
  | .bool _, .obj _ => .isFalse (by intro h; cases h)
  | .num _, .null => .isFalse (by intro h; cases h)
  | .num _, .bool _ => .isFalse (by intro h; cases h)
  | .num _, .str _ => .isFalse (by intro h; cases h)
  | .num _, .arr _ => .isFalse (by intro h; cases h)
  | .num _, .obj _ => .isFalse (by intro h; cases h)
  | .str _, .null => .isFalse (by intro h; cases h)
  | .str _, .bool _ => .isFalse (by intro h; cases h)
  | .str _, .num _ => .isFalse (by intro h; cases h)
  | .str _, .arr _ => .isFalse (by intro h; cases h)
  | .str _, .obj _ => .isFalse (by intro h; cases h)
  | .arr _, .null => .isFalse (by intro h; cases h)
  | .arr _, .bool _ => .isFalse (by intro h; cases h)
  | .arr _, .num _ => .isFalse (by intro h; cases h)
  | .arr _, .str _ => .isFalse (by intro h; cases h)
  | .arr _, .obj _ => .isFalse (by intro h; cases h)
  | .obj _, .null => .isFalse (by intro h; cases h)
  | .obj _, .bool _ => .isFalse (by intro h; cases h)
  | .obj _, .num _ => .isFalse (by intro h; cases h)
  | .obj _, .str _ => .isFalse (by intro h; cases h)
  | .obj _, .arr _ => .isFalse (by intro h; cases h)

def Json.decEqList : (a b : List Json) → Decidable (a = b)
  | [], [] => .isTrue rfl
  | [], _ :: _ => .isFalse (by intro h; cases h)
  | _ :: _, [] => .isFalse (by intro h; cases h)
  | a :: as, b :: bs =>
    match Json.decEq a b with
    | .isFalse h => .isFalse (by intro hc; cases hc; exact h rfl)
    | .isTrue h1 =>
      match Json.decEqList as bs with
      | .isTrue h2 => .isTrue (by rw [h1, h2])
      | .isFalse h => .isFalse (by intro hc; cases hc; exact h rfl)

def Json.decEqObj : (a b : List (String × Json)) → Decidable (a = b)
  | [], [] => .isTrue rfl
  | [], _ :: _ => .isFalse (by intro h; cases h)
  | _ :: _, [] => .isFalse (by intro h; cases h)
  | (ka, va) :: as, (kb, vb) :: bs =>
    if hk : ka = kb then
      match Json.decEq va vb with
      | .isFalse h => .isFalse (by intro hc; cases hc; exact h rfl)
      | .isTrue hv =>
        match Json.decEqObj as bs with
        | .isTrue h2 => .isTrue (by rw [hk, hv, h2])
        | .isFalse h => .isFalse (by intro hc; cases hc; exact h rfl)
    else .isFalse (by intro hc; cases hc; exact hk rfl)

end

instance : DecidableEq Json := Json.decEq

/-- Association-list lookup, the embedding of a Python dict read `d[k]` /
`k in d` on dicts whose keys are unique. -/
def alookup {α : Type} : List (String × α) → String → Option α
  | [], _ => none
  | (k, v) :: rest, key => if k = key then some v else alookup rest key

/-- Python dict assignment `d[k] = v`: an existing key keeps its position and
gets the new value, a fresh key is appended (dict insertion order). -/
def dset (kvs : List (String × Json)) (k : String) (v : Json) : List (String × Json) :=
  if kvs.any (fun p => p.1 = k) then
    kvs.map (fun p => if p.1 = k then (k, v) else p)
  else kvs ++ [(k, v)]

/-- Python truthiness of a decoded JSON value (`if not data: ...`). -/
def jsonTruthy : Json → Bool
  | .null => false
  | .bool b => b
  | .num n => n ≠ 0
  | .str s => s ≠ ""
  | .arr xs => xs ≠ []
  | .obj kvs => kvs ≠ []

/-- Indexing `d[k]` on a decoded JSON value: `none` models the Python exception
(`TypeError` on a non-dict, `KeyError` on a missing key). -/
def jIndex (j : Json) (k : String) : Option Json :=
  match j with
  | .obj kvs => alookup kvs k
  | _ => none

mutual

/-- Python `repr()` of a decoded JSON value (used by str() on lists/dicts). -/
def pyRepr : Json → String
  | .null => "None"
  | .bool b => if b then "True" else "False"
  | .num n => toString n
  | .str s => "\x27" ++ s ++ "\x27"
  | .arr xs => "[" ++ pyReprList xs ++ "]"
  | .obj kvs => "\x7b" ++ pyReprObj kvs ++ "\x7d"

def pyReprList : List Json → String
  | [] => ""
  | [x] => pyRepr x
  | x :: y :: xs => pyRepr x ++ ", " ++ pyReprList (y :: xs)

def pyReprObj : List (String × Json) → String
  | [] => ""
  | [(k, v)] => "\x27" ++ k ++ "\x27: " ++ pyRepr v
  | (k, v) :: q :: kvs => "\x27" ++ k ++ "\x27: " ++ pyRepr v ++ ", " ++ pyReprObj (q :: kvs)

end

/-- Python `str()` of a decoded JSON value (as interpolated by an f-string). -/
def pyStr : Json → String
  | .null => "None"
  | .bool b => if b then "True" else "False"
  | .num n => toString n
  | .str s => s
  | .arr xs => pyRepr (.arr xs)
  | .obj kvs => pyRepr (.obj kvs)

/-- Python `str()` of an optional value (Python `None` prints as "None"). -/
def pyStrOpt : Option Json → String
  | none => "None"
  | some j => pyStr j

def listStartsWith : List Char → List Char → Bool
  | _, [] => true
  | [], _ :: _ => false
  | a :: as, b :: bs => a == b && listStartsWith as bs

def listContainsSub : List Char → List Char → Bool
  | [], ns => ns.isEmpty
  | a :: as, ns => listStartsWith (a :: as) ns || listContainsSub as ns

/-- Python substring test `needle in haystack` on strings. -/
def strContainsSub (haystack needle : String) : Bool :=
  listContainsSub haystack.data needle.data

/-- Python membership `x in container` on a decoded JSON value; `none` models
the `TypeError` raised when the container is not iterable (None/bool/number). -/
def pyIn (x : String) : Json → Option Bool
  | .arr xs => some (xs.any (fun j => j = Json.str x))
  | .str s => some (strContainsSub s x)
  | .obj kvs => some (kvs.any (fun p => p.1 = x))
  | _ => none

/-! ### Device Client — `client_http.py` -/

/-- An HTTP response as observed through the `requests` API: status code,
the `content-type` header (via `response.headers.get("content-type", "")`),
the raw text, and the outcome of `response.json()` (`.error` = the decode
exception's message).  `requests` parses the status line's digits, so the
code is a natural number. -/
structure HttpResponse where
  statusCode : Nat
  contentType : String
  text : String
  jsonResult : Except String Json

/-- What one `requests.post` call to a device does: return a response, raise
a `requests.RequestException` (transport failure/timeout — caught inside
`send_http_command`), or raise some other exception with message `msg`
(uncaught there; surfaces at `future.result()`). -/
inductive NetOutcome where
  | resp (r : HttpResponse)
  | transportErr (msg : String)
  | raised (msg : String)

/-- The network oracle: behaviour of each POST, keyed by url and payload. -/
def Net : Type := String → Json → NetOutcome

/-- The `_build_url` helper: strip trailing slashes from the base url, then suffix
`/notify`. -/
def build_url (base_url : String) : String :=
  String.mk (base_url.data.reverse.dropWhile (fun c => c == '/')).reverse ++ "/notify"

/-- The wire payload of `send_http_command`:
`{"command": command, "sensors": sensors} if sensors is not None else
{"command": command, "sensors": []}`. -/
def buildPayload (command : Json) (sensors : Option Json) : Json :=
  match sensors with
  | some s => .obj [("command", command), ("sensors", s)]
  | none => .obj [("command", command), ("sensors", .arr [])]

/-- The function `send_http_command`: one POST to one device.  `.ok (some r)` = a response
came back, `.ok none` = `requests.RequestException` was caught and `None`
returned, `.error m` = some other exception escaped the function. -/
def send_http_command (net : Net) (device_url : String)
    (command : Json) (sensors : Option Json) : Except String (Option HttpResponse) :=
  match net (build_url device_url) (buildPayload command sensors) with
  | .resp r => .ok (some r)
  | .transportErr _ => .ok none
  | .raised m => .error m

/-- The result-collection body of `send_command_to_all_devices` (the
`as_completed` loop): turn one worker's outcome into the per-device result
dict. -/
def collectEntry (w : Except String (Option HttpResponse)) : Json :=
  match w with
  | .error m => .obj [("status", .str "error"), ("error", .str m)]
  | .ok none => .obj [("status", .str "error"), ("error", .str "No response from device.")]
  | .ok (some r) =>
    if strContainsSub r.contentType "application/json" then
      match r.jsonResult with
      | .ok j => .obj [("status", .str "success"), ("code", .num (r.statusCode : Int)), ("body", j)]
      | .error m => .obj [("status", .str "error"), ("error", .str m)]
    else
      .obj [("status", .str "success"), ("code", .num (r.statusCode : Int)), ("body", .str r.text)]

/-- The per-device entry contributed by one worker. -/
def deviceEntry (net : Net) (command : Json) (sensors : Option Json) (url : String) : Json :=
  collectEntry (send_http_command net url command sensors)

/-- The device filter of `send_command_to_all_devices`:
`{did: url for did, url in devices.items() if did in device_ids}`.
`none` = the membership test raised `TypeError`. -/
def filterDevices (registry : List (String × String)) (ids : Json) :
    Option (List (String × String)) :=
  match registry with
  | [] => some []
  | p :: rest =>
    match pyIn p.1 ids with
    | none => none
    | some b =>
      match filterDevices rest ids with
      | none => none
      | some l => some (if b then p :: l else l)

/-- Target resolution (lines 107–111 of `client_http.py`): `device_ids is
None` targets the whole registry, otherwise the registry is filtered by
membership in `device_ids`. -/
def resolveTargets (registry : List (String × String)) :
    Option Json → Option (List (String × String))
  | none => some registry
  | some ids => filterDevices registry ids

/-- The function `send_command_to_all_devices`: resolve targets, run one worker per
target, key each collected result by its device id.  The thread pool always
has at least one worker (`max_workers=len(devices) or 1`), so the empty
target set just yields `{}`; concurrency is invisible here because `results`
is keyed by device id and every worker writes its own key. -/
def send_command_to_all_devices (registry : List (String × String)) (net : Net)
    (command : Json) (sensors : Option Json) (device_ids : Option Json) :
    Option (List (String × Json)) :=
  match resolveTargets registry device_ids with
  | none => none
  | some devices =>
    some (devices.map (fun p => (p.1, deviceEntry net command sensors p.2)))

/-! ### Operator API — `operator_api.py` -/

/-- The pydantic `DeviceResult` model: `status: str` (required),
`code: int | None`, `body: dict | str | None`, `error: str | None`, extra
fields ignored.  (Pydantic's lax numeric-string coercion for `int` is not
modelled; no dispatch result ever carries a string-typed code.) -/
def isOptInt : Option Json → Bool
  | none => true
  | some .null => true
  | some (.num _) => true
  | _ => false

def isOptBody : Option Json → Bool
  | none => true
  | some .null => true
  | some (.obj _) => true
  | some (.str _) => true
  | _ => false

def isOptStr : Option Json → Bool
  | none => true
  | some .null => true
  | some (.str _) => true
  | _ => false

/-- Validation of one result entry against the pydantic `DeviceResult`
model. -/
def validateDeviceResult (j : Json) : Bool :=
  match j with
  | .obj kvs =>
    (match alookup kvs "status" with
     | some (.str _) => true
     | _ => false)
    && isOptInt (alookup kvs "code")
    && isOptBody (alookup kvs "body")
    && isOptStr (alookup kvs "error")
  | _ => false

/-- Validation `EdgeResults(edge=edge_results)`: every entry must validate. -/
def validateEdgeResults (edge : List (String × Json)) : Bool :=
  edge.all (fun p => validateDeviceResult p.2)

/-- The connection-status summary (line 198):
`{device_id: res["status"] for device_id, res in edge_results.items()}`.
`edge_results` is a dict, so device ids are unique and the comprehension
never collapses keys; `none` models the `KeyError`/`TypeError` when an entry
has no `"status"`. -/
def connStatus : List (String × Json) → Option (List (String × Json))
  | [] => some []
  | (did, e) :: rest =>
    match jIndex e "status" with
    | none => none
    | some st =>
      match connStatus rest with
      | none => none
      | some l => some ((did, st) :: l)

/-- Python iteration `for record in recs`: a list yields its elements, a dict
its keys, a string its characters; anything else raises `TypeError` (`none`). -/
def pyIter : Json → Option (List Json)
  | .arr rs => some rs
  | .obj kvs => some (kvs.map (fun p => Json.str p.1))
  | .str s => some (s.data.map (fun c => Json.str (String.mk [c])))
  | _ => none

/-- One record of the sensor-status loop:
`sensor_id = record.get("id", "unknown_sensor")`,
`sensors_status[f"{device_id}:{sensor_id}"] = record.get("status", "unknown_status")`.
`none` models the `AttributeError` when `record` is not a dict. -/
def recordEntry (did : String) : Json → Option (String × Json)
  | .obj rkvs =>
    some (did ++ ":" ++ pyStr ((alookup rkvs "id").getD (.str "unknown_sensor")),
          (alookup rkvs "status").getD (.str "unknown_status"))
  | _ => none

def recordEntries (did : String) : List Json → Option (List (String × Json))
  | [] => some []
  | r :: rest =>
    match recordEntry did r with
    | none => none
    | some q =>
      match recordEntries did rest with
      | none => none
      | some l => some (q :: l)

/-- The per-device guard and record walk of the sensor-status loop
(lines 205–209): only entries with
`res["status"] == "success" and isinstance(res["body"], dict) and "records" in res["body"]`
contribute, one pair per record in `res["body"]["records"]`. -/
def sensorEntriesFor (did : String) (e : Json) : Option (List (String × Json)) :=
  match jIndex e "status" with
  | none => none
  | some st =>
    if st = Json.str "success" then
      match jIndex e "body" with
      | none => none
      | some body =>
        match body with
        | .obj bkvs =>
          match alookup bkvs "records" with
          | some recs =>
            match pyIter recs with
            | none => none
            | some items => recordEntries did items
          | none => some []
        | _ => some []
    else some []

/-- The accumulated `sensors_status` dict, accumulated by assignment over devices in
order and records in order (so colliding keys keep the last record's
status). -/
def sensorStatusAux (acc : List (String × Json)) :
    List (String × Json) → Option (List (String × Json))
  | [] => some acc
  | (did, e) :: rest =>
    match sensorEntriesFor did e with
    | none => none
    | some l => sensorStatusAux (l.foldl (fun a q => dset a q.1 q.2) acc) rest

def sensorStatus (edge : List (String × Json)) : Option (List (String × Json)) :=
  sensorStatusAux [] edge

/-- Evaluation of `any(r["status"] == "success" for r in edge_results.values())` — with the
generator's short-circuit: entries after the first success are never
inspected. -/
def anySuccess : List (String × Json) → Option Bool
  | [] => some false
  | (_, e) :: rest =>
    match jIndex e "status" with
    | none => none
    | some st => if st = Json.str "success" then some true else anySuccess rest

def invalidJsonResp : Json :=
  .obj [("status", .str "error"), ("message", .str "Invalid JSON in request body")]

def missingFieldsResp : Json :=
  .obj [("status", .str "error"),
        ("message", .str "Missing required fields: target, command_id, issued_by")]

/-- The 502 body of the pydantic-validation branch.  (Its `details` key —
pydantic's own error listing — is not modelled; nothing downstream reads
it.) -/
def invalidStructureResp : Json :=
  .obj [("status", .str "error"), ("message", .str "Invalid response structure from devices")]

/-- The response `message` f-string of the final response. -/
def commandMessage (command_id twin_id : Json) (gateway_ids sensor_ids : Option Json)
    (operator_id : Json) : String :=
  "Command \x27" ++ pyStr command_id ++ "\x27 sent to twin \x27" ++ pyStr twin_id ++
  "\x27, gateways \x27" ++ pyStrOpt gateway_ids ++ "\x27, sensors \x27" ++
  pyStrOpt sensor_ids ++ "\x27, by operator \x27" ++ pyStr operator_id ++ "\x27."

/-- Post-assembly stage of `send_command` (lines 189–224): pydantic
validation, the two summary views, the any-success rule and the final JSON
body.  `none` models an exception escaping the handler (Flask then answers
500 with no JSON body). -/
def processEdgeResults (command_id twin_id : Json) (gateway_ids sensor_ids : Option Json)
    (operator_id : Json) (edge : List (String × Json)) : Option (Json × Nat) :=
  if validateEdgeResults edge = false then
    some (invalidStructureResp, 502)
  else
    match connStatus edge with
    | none => none
    | some conn =>
      match sensorStatus edge with
      | none => none
      | some sens =>
        match anySuccess edge with
        | none => none
        | some anyS =>
          some (.obj [
            ("status", .str (if anyS then "success" else "error")),
            ("message", .str (commandMessage command_id twin_id gateway_ids sensor_ids operator_id)),
            ("devices", .obj edge),
            ("connection_status", .obj conn),
            ("sensor_status", .obj sens)],
            if anyS then 200 else 502)

/-- Python `x or default` on the result of a `.get` (Python `None` and falsy values
both fall back). -/
def pyOr (x : Option Json) (d : Json) : Json :=
  match x with
  | none => d
  | some v => if jsonTruthy v then v else d

/-- Lookup `d.get(k)` where a stored JSON `null` is the Python `None` as well:
both "absent" and "null" make later `is not None` tests false. -/
def getOpt (kvs : List (String × Json)) (k : String) : Option Json :=
  match alookup kvs k with
  | some Json.null => none
  | x => x

/-- Process-wide configuration: the device registry `cfg.EDGE_DEVICES`
(a dict, keys unique) and `current_app.config["DEFAULT_TWIN_ID"]`. -/
structure AppConfig where
  registry : List (String × String)
  defaultTwinId : String

/-- The handler of `/operator/commands/send`, `send_command`.  `data` is the
decoded request body (`none` = `request.get_json()` produced nothing).
Returns the `(jsonify body, http code)` pair, or `none` when an unhandled
exception escapes the handler. -/
def send_command (cfg : AppConfig) (net : Net) (data : Option Json) : Option (Json × Nat) :=
  match data with
  | none => some (invalidJsonResp, 400)
  | some d =>
    if jsonTruthy d = false then some (invalidJsonResp, 400)
    else
      match d with
      | .obj kvs =>
        let target := (alookup kvs "target").getD (.obj [])
        if jsonTruthy target = false ∨ alookup kvs "command_id" = none
            ∨ alookup kvs "issued_by" = none then
          some (missingFieldsResp, 400)
        else
          match target with
          | .obj tkvs =>
            let twin_id := pyOr (alookup tkvs "twin_id") (.str cfg.defaultTwinId)
            let command_id := (alookup kvs "command_id").getD .null
            let gateway_ids := getOpt tkvs "gateway_id"
            let sensor_ids := getOpt tkvs "sensor_id"
            let operator_id := (alookup kvs "issued_by").getD .null
            match send_command_to_all_devices cfg.registry net command_id sensor_ids gateway_ids with
            | none => none
            | some edge =>
              processEdgeResults command_id twin_id gateway_ids sensor_ids operator_id edge
          | _ => none
      | _ => none

/-- The `"status"` field of a result entry (the DeviceOutcome variant tag:
`"success"` / `"error"`). -/
def statusOf (e : Json) : Json := (jIndex e "status").getD Json.null

/-- Follows the spec's words (§3 DeviceOutcome, §4.2 step 4): "success ⇒ has
status+body; failure ⇒ has description", with "a `Failure` always carries a
non-empty description".  Written to compare against `validateDeviceResult`,
the validation the code actually performs. -/
def specDeviceOutcomeInvariant (j : Json) : Bool :=
  match j with
  | .obj kvs =>
    match alookup kvs "status" with
    | some (.str "success") => (alookup kvs "code").isSome && (alookup kvs "body").isSome
    | some (.str "error") =>
      match alookup kvs "error" with
      | some (.str m) => m ≠ ""
      | _ => false
    | _ => false
  | _ => false

/-! ### Helper lemmas -/

theorem alookup_eq_none {α : Type} :
    ∀ (l : List (String × α)) (i : String), i ∉ l.map Prod.fst → alookup l i = none
  | [], _, _ => rfl
  | (k, v) :: rest, i, h => by
    simp only [List.map_cons, List.mem_cons] at h
    push_neg at h
    simp only [alookup]
    rw [if_neg (fun hki => h.1 (Eq.symm hki))]
    exact alookup_eq_none rest i h.2

theorem pyIn_strList (d : String) :
    ∀ ids : List String, pyIn d (Json.arr (ids.map Json.str)) = some (decide (d ∈ ids))
  | [] => by simp [pyIn]
  | i :: t => by
    have ih := pyIn_strList d t
    simp only [pyIn, Option.some.injEq, List.map_cons, List.any_cons] at ih ⊢
    rw [ih]
    by_cases h : d = i
    · simp [h, Json.str.injEq]
    · simp [List.mem_cons, h, Ne.symm h, Json.str.injEq]

theorem filterDevices_strList (ids : List String) :
    ∀ registry : List (String × String),
      filterDevices registry (Json.arr (ids.map Json.str)) =
        some (registry.filter (fun p => decide (p.1 ∈ ids)))
  | [] => rfl
  | p :: rest => by
    simp only [filterDevices, pyIn_strList, filterDevices_strList ids rest, List.filter_cons]

theorem filterDevices_sublist (ids : Json) :
    ∀ (registry l : List (String × String)),
      filterDevices registry ids = some l → l.Sublist registry
  | [], l, h => by
    simp only [filterDevices, Option.some.injEq] at h
    rw [← h]
  | p :: rest, l, h => by
    simp only [filterDevices] at h
    cases hp : pyIn p.1 ids with
    | none => rw [hp] at h; cases h
    | some b =>
      rw [hp] at h
      cases hrec : filterDevices rest ids with
      | none => rw [hrec] at h; cases h
      | some l' =>
        rw [hrec] at h
        simp only [Option.some.injEq] at h
        have hsub := filterDevices_sublist ids rest l' hrec
        cases b with
        | true => rw [← h]; simpa using hsub.cons₂ p
        | false => rw [← h]; simpa using hsub.cons p

theorem resolveTargets_sublist (registry devs : List (String × String)) (dids : Option Json)
    (h : resolveTargets registry dids = some devs) : devs.Sublist registry := by
  cases dids with
  | none =>
    simp only [resolveTargets, Option.some.injEq] at h
    rw [← h]
  | some ids => exact filterDevices_sublist ids registry devs h

/-! ### Claims -/

/-- Claim C9: for every command string, `send_http_command` with `sensors = None`
and with `sensors = []` post the identical wire payload, whose `sensors`
field is the empty list in both cases. -/
theorem sensors_payload_roundtrip :
    ∀ (net : Net) (url c : String),
      send_http_command net url (.str c) (some (.arr [])) = send_http_command net url (.str c) none
      ∧ buildPayload (.str c) (some (.arr [])) = .obj [("command", .str c), ("sensors", .arr [])]
      ∧ buildPayload (.str c) none = .obj [("command", .str c), ("sensors", .arr [])] := by
  intro net url c
  exact ⟨rfl, rfl, rfl⟩

/-- Claim C4: target resolution — `device_ids = None` targets the full registry;
an explicit list targets the intersection of registry keys and the list
(registry order); a requested id absent from the registry raises no error
and contributes no entry to the result. -/
theorem target_resolution (registry : List (String × String)) (ids : List String) :
    resolveTargets registry none = some registry
    ∧ resolveTargets registry (some (.arr (ids.map Json.str)))
        = some (registry.filter (fun p => decide (p.1 ∈ ids)))
    ∧ (∀ i, i ∉ registry.map Prod.fst →
        ∀ (net : Net) (cmd : Json) (sens : Option Json) (res : List (String × Json)),
          send_command_to_all_devices registry net cmd sens (some (.arr (ids.map Json.str))) = some res →
          alookup res i = none) := by
  refine ⟨rfl, filterDevices_strList ids registry, ?_⟩
  intro i hi net cmd sens res hres
  simp only [send_command_to_all_devices, resolveTargets, filterDevices_strList ids registry,
    Option.some.injEq] at hres
  apply alookup_eq_none
  rw [← hres]
  simp only [List.map_map]
  intro hmem
  apply hi
  simp only [List.mem_map] at hmem ⊢
  obtain ⟨p, hp, hpi⟩ := hmem
  exact ⟨p, (List.mem_filter.mp hp).1, hpi⟩

/-- Claim C4 witness: a registry of one device, a request for an absent id. -/
theorem target_resolution_witness :
    resolveTargets [("device_01", "http://d1")] none = some [("device_01", "http://d1")]
    ∧ alookup
        ((send_command_to_all_devices [("device_01", "http://d1")]
            (fun _ _ => .transportErr "x") (.str "cmd_01") none
            (some (.arr [Json.str "device_99"]))).getD [])
        "device_99" = none := by
  refine ⟨(target_resolution [("device_01", "http://d1")] ["device_99"]).1, ?_⟩
  exact (target_resolution [("device_01", "http://d1")] ["device_99"]).2.2 "device_99"
    (by decide) (fun _ _ => .transportErr "x") (.str "cmd_01") none _ rfl

/-- Claim C3: the result mapping of `send_command_to_all_devices` has exactly the
resolved target set as keys — one entry per targeted device, no duplicates
(given the registry's dict keys are unique), no omissions, whatever the
per-device outcomes — and the empty target set yields the empty mapping. -/
theorem dispatch_result_keys (registry : List (String × String)) (net : Net)
    (cmd : Json) (sens : Option Json) (dids : Option Json)
    (devs : List (String × String)) (res : List (String × Json))
    (hdev : resolveTargets registry dids = some devs)
    (hres : send_command_to_all_devices registry net cmd sens dids = some res) :
    res.map Prod.fst = devs.map Prod.fst
    ∧ ((registry.map Prod.fst).Nodup → (res.map Prod.fst).Nodup)
    ∧ (devs = [] → res = []) := by
  simp only [send_command_to_all_devices, hdev, Option.some.injEq] at hres
  have hkeys : res.map Prod.fst = devs.map Prod.fst := by
    rw [← hres, List.map_map]
    rfl
  refine ⟨hkeys, ?_, ?_⟩
  · intro hnd
    rw [hkeys]
    exact hnd.sublist ((resolveTargets_sublist registry devs dids hdev).map Prod.fst)
  · intro hdevs
    rw [← hres, hdevs]
    rfl

theorem statusOf_success_entry (c b : Json) :
    statusOf (.obj [("status", .str "success"), ("code", c), ("body", b)]) = .str "success" := rfl

theorem collectEntry_status (w : Except String (Option HttpResponse)) :
    jIndex (collectEntry w) "status" = some (statusOf (collectEntry w))
    ∧ (statusOf (collectEntry w) = .str "success" ∨ statusOf (collectEntry w) = .str "error") := by
  cases w with
  | error m => exact ⟨rfl, Or.inr rfl⟩
  | ok o =>
    cases o with
    | none => exact ⟨rfl, Or.inr rfl⟩
    | some r =>
      simp only [collectEntry]
      by_cases h : strContainsSub r.contentType "application/json" = true
      · rw [if_pos h]
        cases r.jsonResult with
        | ok j => exact ⟨rfl, Or.inl rfl⟩
        | error m => exact ⟨rfl, Or.inr rfl⟩
      · rw [if_neg h]
        exact ⟨rfl, Or.inl rfl⟩

theorem connStatus_fanout :
    ∀ (devs : List (String × String)) (net : Net) (cmd : Json) (sens : Option Json),
      connStatus (devs.map (fun p => (p.1, deviceEntry net cmd sens p.2))) =
        some (devs.map (fun p => (p.1, statusOf (deviceEntry net cmd sens p.2))))
  | [], _, _, _ => rfl
  | p :: rest, net, cmd, sens => by
    have h1 : jIndex (deviceEntry net cmd sens p.2) "status"
        = some (statusOf (deviceEntry net cmd sens p.2)) :=
      (collectEntry_status (send_http_command net p.2 cmd sens)).1
    simp only [List.map_cons, connStatus, h1, connStatus_fanout rest net cmd sens]

/-- Claim C5: the connection-status summary copies, for every targeted device, the
DeviceOutcome variant tag and nothing else — the tag is always `"success"`
or `"error"`, it does not depend on the HTTP status code, an HTTP 500
response with a JSON body is tagged `"success"`, and a call that got no
response (timeout/transport failure) is tagged `"error"`. -/
theorem connection_status_by_variant :
    (∀ (devs : List (String × String)) (net : Net) (cmd : Json) (sens : Option Json),
        connStatus (devs.map (fun p => (p.1, deviceEntry net cmd sens p.2))) =
          some (devs.map (fun p => (p.1, statusOf (deviceEntry net cmd sens p.2)))))
    ∧ (∀ w, statusOf (collectEntry w) = .str "success" ∨ statusOf (collectEntry w) = .str "error")
    ∧ (∀ (r : HttpResponse) (n : Nat),
        statusOf (collectEntry (.ok (some ⟨n, r.contentType, r.text, r.jsonResult⟩)))
          = statusOf (collectEntry (.ok (some r))))
    ∧ (∀ (ct txt : String) (j : Json), strContainsSub ct "application/json" = true →
        statusOf (collectEntry (.ok (some ⟨500, ct, txt, .ok j⟩))) = .str "success")
    ∧ statusOf (collectEntry (.ok none)) = .str "error" := by
  refine ⟨connStatus_fanout, fun w => (collectEntry_status w).2, ?_, ?_, rfl⟩
  · intro r n
    simp only [collectEntry]
    by_cases h : strContainsSub r.contentType "application/json" = true
    · rw [if_pos h, if_pos h]
      cases r.jsonResult <;> rfl
    · rw [if_neg h, if_neg h, statusOf_success_entry, statusOf_success_entry]
  · intro ct txt j h
    simp only [collectEntry, if_pos h]
    exact statusOf_success_entry _ _

theorem statusOf_error_entry (e : Json) :
    statusOf (.obj [("status", .str "error"), ("error", e)]) = .str "error" := rfl

/-- Claim C7 (amended): every assembled result entry is well-shaped — a Success
entry carries a non-negative integer HTTP status code and a body, a Failure
entry carries a description string; the description of a no-response
transport failure is the non-empty "No response from device.", but a
Failure recorded from an unexpected worker exception carries `str(e)`
verbatim, which the code does not guarantee non-empty. -/
theorem outcome_entry_shape (w : Except String (Option HttpResponse)) :
    (statusOf (collectEntry w) = .str "success" →
      ∃ n : Int, 0 ≤ n ∧ jIndex (collectEntry w) "code" = some (.num n)
        ∧ (jIndex (collectEntry w) "body").isSome = true)
    ∧ (statusOf (collectEntry w) = .str "error" →
      ∃ m : String, jIndex (collectEntry w) "error" = some (.str m))
    ∧ (w = .ok none →
      jIndex (collectEntry w) "error" = some (.str "No response from device.")
      ∧ ("No response from device." : String) ≠ "") := by
  cases w with
  | error m =>
    refine ⟨fun h => ?_, fun _ => ⟨m, rfl⟩, fun h => by cases h⟩
    rw [show statusOf (collectEntry (Except.error m)) = .str "error" from rfl] at h
    exact absurd h (by decide)
  | ok o =>
    cases o with
    | none => exact ⟨fun h => absurd h (by decide), fun _ => ⟨"No response from device.", rfl⟩,
        fun _ => ⟨rfl, by decide⟩⟩
    | some r =>
      simp only [collectEntry]
      by_cases h : strContainsSub r.contentType "application/json" = true
      · rw [if_pos h]
        cases r.jsonResult with
        | ok j =>
          refine ⟨fun _ => ⟨(r.statusCode : Int), Int.ofNat_nonneg _, rfl, rfl⟩,
            fun hc => absurd hc ?_, fun hc => ?_⟩
          · rw [statusOf_success_entry]; decide
          · cases hc
        | error m =>
          refine ⟨fun hc => absurd hc ?_, fun _ => ⟨m, rfl⟩, fun hc => ?_⟩
          · rw [statusOf_error_entry]; decide
          · cases hc
      · rw [if_neg h]
        refine ⟨fun _ => ⟨(r.statusCode : Int), Int.ofNat_nonneg _, rfl, rfl⟩,
          fun hc => absurd hc ?_, fun hc => ?_⟩
        · rw [statusOf_success_entry]; decide
        · cases hc

/-- Claim C7 witness: the no-response Failure entry carries its (non-empty)
description. -/
theorem outcome_entry_shape_witness :
    jIndex (collectEntry (.ok none)) "error" = some (.str "No response from device.")
    ∧ statusOf (collectEntry (.ok none)) = .str "error" :=
  ⟨((outcome_entry_shape (.ok none)).2.2 rfl).1, rfl⟩

/-- Claim C7 counterexample: a worker whose unexpected exception has an empty
`str(e)` yields an assembled Failure entry whose description is the empty
string — the result mapping then violates the non-empty-description
invariant the claim asserts. -/
theorem failure_description_can_be_empty :
    send_command_to_all_devices [("device_01", "http://d1")] (fun _ _ => .raised "")
        (.str "cmd_01") none none
      = some [("device_01", .obj [("status", .str "error"), ("error", .str "")])]
    ∧ specDeviceOutcomeInvariant (.obj [("status", .str "error"), ("error", .str "")]) = false :=
  ⟨rfl, by decide⟩

theorem dset_fresh (acc : List (String × Json)) (k : String) (v : Json)
    (h : acc.any (fun p => p.1 = k) = false) : dset acc k v = acc ++ [(k, v)] := by
  simp only [dset, h]
  rfl

theorem foldl_dset_fresh :
    ∀ (l acc : List (String × Json)),
      (∀ q ∈ l, acc.any (fun p => p.1 = q.1) = false) →
      (l.map Prod.fst).Nodup →
      l.foldl (fun a q => dset a q.1 q.2) acc = acc ++ l
  | [], acc, _, _ => by simp
  | q :: t, acc, hfresh, hnd => by
    simp only [List.map_cons, List.nodup_cons] at hnd
    have h2 : ∀ r ∈ t, (acc ++ [q]).any (fun p => p.1 = r.1) = false := by
      intro r hr
      simp only [List.any_append, Bool.or_eq_false_iff]
      refine ⟨hfresh r (List.mem_cons_of_mem q hr), ?_⟩
      have hne : r.1 ≠ q.1 := fun he => hnd.1 (he ▸ List.mem_map_of_mem Prod.fst hr)
      have hqr : q.1 ≠ r.1 := fun he => hne (Eq.symm he)
      simp [hqr]
    simp only [List.foldl_cons]
    rw [dset_fresh acc q.1 q.2 (hfresh q (List.mem_cons_self q t))]
    rw [foldl_dset_fresh t (acc ++ [q]) h2 hnd.2]
    simp

theorem recordEntries_objs (did : String) :
    ∀ rs : List (List (String × Json)),
      recordEntries did (rs.map Json.obj) =
        some (rs.map (fun rkvs =>
          (did ++ ":" ++ pyStr ((alookup rkvs "id").getD (.str "unknown_sensor")),
           (alookup rkvs "status").getD (.str "unknown_status"))))
  | [] => rfl
  | rkvs :: rest => by
    simp only [List.map_cons, recordEntries, recordEntry, recordEntries_objs did rest]

/-- Claim C6 (amended): for a Success entry whose body is a dict with a `records`
list of record dicts, the sensor-status summary holds one pair per distinct
derived key `"<deviceId>:<recordId>"` mapped to that record's own status
(default `"unknown_status"`), a record without an `"id"` falling back to the
sentinel `"unknown_sensor"` instead of being dropped; records whose derived
keys are pairwise distinct each contribute exactly one entry (colliding keys
collapse to the last record's status, as the counterexample shows). -/
theorem sensor_status_extraction
    (did : String) (e : Json) (bkvs : List (String × Json)) (rs : List (List (String × Json)))
    (hst : jIndex e "status" = some (.str "success"))
    (hbody : jIndex e "body" = some (.obj bkvs))
    (hrecs : alookup bkvs "records" = some (.arr (rs.map Json.obj))) :
    sensorEntriesFor did e = some (rs.map (fun rkvs =>
        (did ++ ":" ++ pyStr ((alookup rkvs "id").getD (.str "unknown_sensor")),
         (alookup rkvs "status").getD (.str "unknown_status"))))
    ∧ ((rs.map (fun rkvs =>
          did ++ ":" ++ pyStr ((alookup rkvs "id").getD (.str "unknown_sensor")))).Nodup →
        sensorStatus [(did, e)] = some (rs.map (fun rkvs =>
          (did ++ ":" ++ pyStr ((alookup rkvs "id").getD (.str "unknown_sensor")),
           (alookup rkvs "status").getD (.str "unknown_status"))))) := by
  have h1 : sensorEntriesFor did e = some (rs.map (fun rkvs =>
      (did ++ ":" ++ pyStr ((alookup rkvs "id").getD (.str "unknown_sensor")),
       (alookup rkvs "status").getD (.str "unknown_status")))) := by
    simp only [sensorEntriesFor, hst, hbody, hrecs, if_pos, pyIter, recordEntries_objs]
  refine ⟨h1, fun hnd => ?_⟩
  simp only [sensorStatus, sensorStatusAux, h1]
  rw [foldl_dset_fresh _ [] (fun q _ => rfl) ?_]
  · rfl
  · simpa [List.map_map, Function.comp] using hnd

/-- Claim C6 witness: one record with an id, one without; the id-less record is
kept under the `unknown_sensor` fallback key. -/
theorem sensor_status_extraction_witness :
    sensorStatus [("device_02", .obj [("status", .str "success"), ("code", .num 200),
        ("body", .obj [("records", .arr
          [.obj [("id", .str "A1B2C3D4E5F6-t1"), ("status", .str "OK")],
           .obj [("status", .str "ERROR")]])])])]
      = some [("device_02:A1B2C3D4E5F6-t1", .str "OK"),
              ("device_02:unknown_sensor", .str "ERROR")] := by
  have h := (sensor_status_extraction "device_02"
    (.obj [("status", .str "success"), ("code", .num 200),
        ("body", .obj [("records", .arr
          [.obj [("id", .str "A1B2C3D4E5F6-t1"), ("status", .str "OK")],
           .obj [("status", .str "ERROR")]])])])
    [("records", .arr
          [.obj [("id", .str "A1B2C3D4E5F6-t1"), ("status", .str "OK")],
           .obj [("status", .str "ERROR")]])]
    [[("id", .str "A1B2C3D4E5F6-t1"), ("status", .str "OK")], [("status", .str "ERROR")]]
    rfl rfl rfl).2 (by decide)
  exact h.trans (by decide)

/-- Claim C6 counterexample: two records both lacking an `"id"` collapse onto the
single fallback key, so the summary does not contain one entry per record —
the first record's status is overwritten by the last one's. -/
theorem sensor_status_collapses_duplicate_keys :
    sensorStatus [("d1", .obj [("status", .str "success"), ("code", .num 200),
        ("body", .obj [("records", .arr [.obj [("status", .str "OK")],
                                         .obj [("status", .str "ERROR")]])])])]
      = some [("d1:unknown_sensor", .str "ERROR")]
    ∧ [Json.obj [("status", Json.str "OK")], Json.obj [("status", Json.str "ERROR")]].length = 2
    ∧ [(("d1:unknown_sensor" : String), Json.str "ERROR")].length = 1 :=
  ⟨by decide, rfl, rfl⟩

/-- Claim C5 witness: an HTTP 500 JSON response is classified "success". -/
theorem connection_status_by_variant_witness :
    strContainsSub "application/json" "application/json" = true
    ∧ statusOf (collectEntry (.ok (some ⟨500, "application/json", "", .ok (.obj [])⟩)))
        = .str "success" :=
  ⟨by decide, connection_status_by_variant.2.2.2.1 "application/json" "" (.obj []) (by decide)⟩

/-- Claim C8 (amended): a request body lacking the `command_id` key or the
`issued_by` key, or whose `target` is absent or falsy, is rejected with the
400 validation response — for every network behaviour `net`, i.e. before
any network call is made; a present-but-empty command string is NOT
rejected (see the counterexample). -/
theorem request_validation_rejects_missing_fields (cfg : AppConfig) (net : Net)
    (kvs : List (String × Json))
    (htruthy : jsonTruthy (.obj kvs) = true)
    (h : jsonTruthy ((alookup kvs "target").getD (.obj [])) = false
         ∨ alookup kvs "command_id" = none ∨ alookup kvs "issued_by" = none) :
    send_command cfg net (some (.obj kvs)) = some (missingFieldsResp, 400) := by
  simp only [send_command]
  rw [if_neg (by rw [htruthy]; simp)]
  rw [if_pos h]

/-- Claim C8 witness: a request with `target` and `issued_by` but no `command_id`
is answered 400 without touching the network. -/
theorem request_validation_rejects_missing_fields_witness :
    send_command ⟨[("device_01", "http://d1")], "etna_01"⟩ (fun _ _ => .transportErr "x")
      (some (.obj [("target", .obj [("twin_id", .str "etna_01")]), ("issued_by", .str "op_01")]))
      = some (missingFieldsResp, 400) :=
  request_validation_rejects_missing_fields _ _ _ (by decide) (Or.inr (Or.inl (by decide)))

/-- Claim C8 counterexample: `command_id` present but equal to the empty string is
not rejected — the dispatch proceeds, the targeted device's answer appears
in the response, and the handler returns 200, not a validation error. -/
theorem empty_command_not_rejected :
    (send_command ⟨[("device_01", "http://d1")], "etna_01"⟩
        (fun _ _ => .resp ⟨200, "application/json", "", .ok (.obj [("records", .arr [])])⟩)
        (some (.obj [("target", .obj [("twin_id", .str "etna_01")]),
                     ("command_id", .str ""), ("issued_by", .str "op_01")]))).map Prod.snd
      = some 200
    ∧ (send_command ⟨[("device_01", "http://d1")], "etna_01"⟩
        (fun _ _ => .resp ⟨200, "application/json", "", .ok (.obj [("records", .arr [])])⟩)
        (some (.obj [("target", .obj [("twin_id", .str "etna_01")]),
                     ("command_id", .str ""), ("issued_by", .str "op_01")]))).bind
        (fun p => jIndex p.1 "devices")
      = some (.obj [("device_01", .obj [("status", .str "success"), ("code", .num 200),
          ("body", .obj [("records", .arr [])])])]) :=
  ⟨by decide, by decide⟩

/-- Claim C10: a well-formed request whose resolved target set is empty is
answered with overall status "error", HTTP 502, and empty `devices`,
`connection_status` and `sensor_status` mappings — the any-success rule
over zero devices yields failure. -/
theorem empty_target_overall_error (cfg : AppConfig) (net : Net)
    (kvs tkvs : List (String × Json))
    (htarget : alookup kvs "target" = some (.obj tkvs))
    (httru : jsonTruthy (.obj tkvs) = true)
    (hcmd : (alookup kvs "command_id").isSome = true)
    (hop : (alookup kvs "issued_by").isSome = true)
    (hempty : resolveTargets cfg.registry (getOpt tkvs "gateway_id") = some []) :
    send_command cfg net (some (.obj kvs)) =
      some (.obj [
        ("status", .str "error"),
        ("message", .str (commandMessage ((alookup kvs "command_id").getD .null)
          (pyOr (alookup tkvs "twin_id") (.str cfg.defaultTwinId))
          (getOpt tkvs "gateway_id") (getOpt tkvs "sensor_id")
          ((alookup kvs "issued_by").getD .null))),
        ("devices", .obj []), ("connection_status", .obj []), ("sensor_status", .obj [])],
        502) := by
  have hkvs : jsonTruthy (.obj kvs) = true := by
    cases kvs with
    | nil => simp [alookup] at htarget
    | cons q t => simp [jsonTruthy]
  simp only [send_command, htarget, Option.getD_some]
  rw [if_neg (by rw [hkvs]; simp)]
  rw [if_neg ?hcond]
  case hcond =>
    intro hc
    rcases hc with hc | hc | hc
    · rw [httru] at hc; cases hc
    · rw [hc] at hcmd; cases hcmd
    · rw [hc] at hop; cases hop
  simp only [send_command_to_all_devices, hempty, List.map_nil]
  rfl

/-- Claim C10 witness: every requested gateway id is absent from the registry. -/
theorem empty_target_overall_error_witness :
    send_command ⟨[("device_01", "http://d1")], "etna_01"⟩ (fun _ _ => .transportErr "x")
      (some (.obj [("target", .obj [("twin_id", .str "etna_01"),
                     ("gateway_id", .arr [.str "device_99"])]),
                   ("command_id", .str "cmd_01"), ("issued_by", .str "op_01")]))
      = some (.obj [("status", .str "error"),
          ("message", .str (commandMessage (.str "cmd_01") (.str "etna_01")
            (some (.arr [.str "device_99"])) none (.str "op_01"))),
          ("devices", .obj []), ("connection_status", .obj []), ("sensor_status", .obj [])],
          502) := by
  have h := empty_target_overall_error ⟨[("device_01", "http://d1")], "etna_01"⟩
    (fun _ _ => .transportErr "x")
    [("target", .obj [("twin_id", .str "etna_01"), ("gateway_id", .arr [.str "device_99"])]),
     ("command_id", .str "cmd_01"), ("issued_by", .str "op_01")]
    [("twin_id", .str "etna_01"), ("gateway_id", .arr [.str "device_99"])]
    rfl (by decide) (by decide) (by decide) (by decide)
  exact h.trans (by decide)

/-- Claim C2 (amended): the post-assembly validation checks only that each result
entry is a mapping carrying a string `status` field and correctly-typed
optional `code`/`body`/`error` fields; an entry failing that — such as
`{"wrong_field": "oops"}` — makes dispatch answer the distinct
"Invalid response structure from devices" 502.  It does not enforce the
full DeviceOutcome invariant (see the counterexample). -/
theorem validation_checks_entry_shape
    (cid twin : Json) (gw sens : Option Json) (op : Json) (edge : List (String × Json))
    (h : validateEdgeResults edge = false) :
    processEdgeResults cid twin gw sens op edge = some (invalidStructureResp, 502)
    ∧ validateDeviceResult (.obj [("wrong_field", .str "oops")]) = false := by
  constructor
  · simp only [processEdgeResults]
    rw [if_pos h]
  · decide

/-- Claim C2 witness: the spec's own scenario `{"wrong_field": "oops"}`. -/
theorem validation_checks_entry_shape_witness :
    validateEdgeResults [("device_01", .obj [("wrong_field", .str "oops")])] = false
    ∧ processEdgeResults (.str "cmd_01") (.str "etna_01") none none (.str "op_01")
        [("device_01", .obj [("wrong_field", .str "oops")])] = some (invalidStructureResp, 502) :=
  ⟨by decide, (validation_checks_entry_shape _ _ _ _ _ _ (by decide)).1⟩

/-- Claim C2 counterexample: the entry `{"status": "error"}` violates the
DeviceOutcome invariant (a Failure without a description) yet passes the
validation, and dispatch answers through the ordinary path, not with the
invalid-structure report. -/
theorem validation_misses_outcome_invariant :
    specDeviceOutcomeInvariant (.obj [("status", .str "error")]) = false
    ∧ validateEdgeResults [("device_01", .obj [("status", .str "error")])] = true
    ∧ (processEdgeResults (.str "cmd_01") (.str "etna_01") none none (.str "op_01")
        [("device_01", .obj [("status", .str "error")])]).map Prod.fst
        ≠ some invalidStructureResp
    ∧ (processEdgeResults (.str "cmd_01") (.str "etna_01") none none (.str "op_01")
        [("device_01", .obj [("status", .str "error")])]).isSome = true :=
  ⟨by decide, by decide, by decide, by decide⟩

/-- Claim C1 (code bug): with one targeted device whose outcome is a Success — an
HTTP 200 JSON answer whose body is `{"records": 5}` — the sensor-status
loop iterates a non-iterable and the handler raises (`none`; Flask answers
500), so `send_command` does not return the claimed "success"/200 despite
the Success outcome.  With the same request and a well-formed records list
the any-success rule does yield HTTP 200. -/
theorem sendCommand_crashes_on_malformed_records :
    statusOf (deviceEntry
        (fun _ _ => .resp ⟨200, "application/json", "", .ok (.obj [("records", .num 5)])⟩)
        (.str "cmd_01") none "http://d1") = .str "success"
    ∧ send_command ⟨[("device_01", "http://d1")], "etna_01"⟩
        (fun _ _ => .resp ⟨200, "application/json", "", .ok (.obj [("records", .num 5)])⟩)
        (some (.obj [("target", .obj [("twin_id", .str "etna_01")]),
                     ("command_id", .str "cmd_01"), ("issued_by", .str "op_01")])) = none
    ∧ (send_command ⟨[("device_01", "http://d1")], "etna_01"⟩
        (fun _ _ => .resp ⟨200, "application/json", "", .ok (.obj [("records",
            .arr [.obj [("id", .str "t1"), ("status", .str "OK")]])])⟩)
        (some (.obj [("target", .obj [("twin_id", .str "etna_01")]),
                     ("command_id", .str "cmd_01"), ("issued_by", .str "op_01")]))).map Prod.snd
        = some 200 :=
  ⟨by decide, by decide, by decide⟩

/-- Claim C3 witness: two devices, one succeeding and one failing. -/
theorem dispatch_result_keys_witness :
    ((send_command_to_all_devices [("device_01", "http://d1"), ("device_02", "http://d2")]
        (fun u _ => if u = "http://d1/notify" then .resp ⟨200, "application/json", "", .ok (.obj [])⟩
                    else .transportErr "timeout")
        (.str "cmd_01") none none).getD []).map Prod.fst = ["device_01", "device_02"] := by
  have h := dispatch_result_keys [("device_01", "http://d1"), ("device_02", "http://d2")]
    (fun u _ => if u = "http://d1/notify" then .resp ⟨200, "application/json", "", .ok (.obj [])⟩
                else .transportErr "timeout")
    (.str "cmd_01") none none
    [("device_01", "http://d1"), ("device_02", "http://d2")] _ rfl rfl
  exact h.1

end IoT
